import Mathlib

/-!
Verification development for a blog-platform backend: a user controller
(`src/controllers/userController.js`) exposing authentication, registration,
profile management, follow and admin operations, plus a database bootstrap
(`connectDB`). Handlers are embedded as pure functions over an explicit
account store; JavaScript truthiness on optional string fields is made
explicit (`undefined` becomes `Option.none`, and the empty string is the
falsy string).
-/

namespace Blog

/-- JSON-like values appearing in response payloads (all payloads in this
controller are flat: strings, numbers, booleans, string lists, null). -/
inductive Value where
  | str (s : String)
  | num (n : Nat)
  | bool (b : Bool)
  | strList (l : List String)
  | null
deriving Repr, DecidableEq

/-- A response body: an ordered list of (field name, value) pairs. -/
abbrev Payload := List (String × Value)

/-- Result of one handler invocation, as produced through `asyncHandler`:
either `res.status(s).json(payload)` or a thrown error carried with the
status set before the throw. -/
inductive HResult (α : Type) where
  | success (status : Nat) (payload : α)
  | error (status : Nat) (message : String)
deriving Repr, DecidableEq

def HResult.isSuccess : HResult α → Bool
  | .success _ _ => true
  | .error _ _ => false

/-- Modelled from the spec: the `UserRole` enumeration lives in
`src/model/userModel.js`, which is not under `src/`; section 3 of the spec
fixes the role enumeration as the set containing USER and ADMIN. -/
def UserRole.USER : String := "USER"

/-- Modelled from the spec: the ADMIN member of the role enumeration
(see `UserRole.USER`). -/
def UserRole.ADMIN : String := "ADMIN"

/-- Modelled from the spec: `Object.values(UserRole)`, the fixed role
enumeration of the absent `userModel.js`. -/
def validRoles : List String := [UserRole.USER, UserRole.ADMIN]

/-- An account document as stored by the Account Store. The `password`
field holds the derived hash (the spec's "password hash"). -/
structure User where
  id : Nat
  fullName : String
  email : String
  password : String
  username : Option String
  profileImage : String
  roles : List String
  isBanned : Bool
deriving Repr, DecidableEq

/-- `user.hasRole(role)`: set-membership test on the account's role list. -/
def User.hasRole (u : User) (r : String) : Bool :=
  u.roles.contains r

/-- Modelled from the spec: document serialization (`res.json(user)` goes
through the model's serializer in the absent `userModel.js`); section 3
says the password hash is "never serialized outward", so serialization
omits the `password` field. -/
def User.toJSON (u : User) : Payload :=
  [("_id", .num u.id), ("fullName", .str u.fullName), ("email", .str u.email),
   ("username", match u.username with | some s => .str s | none => .null),
   ("profileImage", .str u.profileImage), ("roles", .strList u.roles),
   ("isBanned", .bool u.isBanned)]

/-- The account store: the collection of persisted user documents. -/
abbrev Store := List User

/-- `User.findOne(\x7b email \x7d)`. -/
def findOne (store : Store) (email : String) : Option User :=
  store.find? (fun u => u.email == email)

/-- `User.findById(id)`. -/
def findById (store : Store) (id : Nat) : Option User :=
  store.find? (fun u => u.id == id)

/-- `user.save()`: write the (single) document with this id back. -/
def saveUser (store : Store) (u : User) : Store :=
  store.map (fun x => if x.id == u.id then u else x)

/-- Modelled from the spec: `generateToken(user._id, res)` lives in
`src/utils/generateToken.js`, absent from `src/`; per section 4.2 the Token
Issuer returns an opaque token for the account id (and attaches it to the
response transport, which we do not model). -/
def generateToken (id : Nat) : String :=
  "token:" ++ toString id

/-- Outcome of the fire-and-forget `req.app.get('io').emit(...)` call:
either it returns normally or it throws. -/
inductive EmitResult where
  | ok
  | fail
deriving Repr, DecidableEq

/-- JavaScript `v || d` for an optional string field: `undefined` and the
empty string are falsy, any other string is truthy. -/
def jsOrStr (v : Option String) (d : String) : String :=
  match v with
  | some s => if s.isEmpty then d else s
  | none => d

/-- JavaScript `v || null` for an optional string field. -/
def jsOrNull (v : Option String) : Option String :=
  match v with
  | some s => if s.isEmpty then none else some s
  | none => none

/-- JavaScript `v !== undefined ? v : cur` (admin update style): any
defined value, the empty string included, is assigned. -/
def ifDefined (v : Option String) (cur : String) : String :=
  match v with
  | some s => s
  | none => cur

/-- Response body of a successful login (`authUser`), field for field as
built at src/controllers/userController.js lines 25-33. -/
def loginPayload (u : User) (token : String) : Payload :=
  [("_id", .num u.id), ("fullName", .str u.fullName), ("email", .str u.email),
   ("roles", .strList u.roles), ("isAdmin", .bool (u.hasRole UserRole.ADMIN)),
   ("profileImage", .str u.profileImage), ("token", .str token)]

/-- `authUser` (login). `matchPassword` abstracts the document method of
the absent `userModel.js` (spec section 4.1: `verify(plaintext, storedHash)`);
it is applied to the submitted plaintext and the stored hash. The `emit`
argument is the outcome of the unguarded `io.emit` call, which in the
source sits on the success path before the response is sent, so a throw
there aborts the handler. -/
def authUser (store : Store) (matchPassword : String → String → Bool)
    (email password : String) (emit : EmitResult) : HResult Payload :=
  match findOne store email with
  | some user =>
    if matchPassword password user.password then
      match emit with
      | .ok => .success 200 (loginPayload user (generateToken user.id))
      | .fail => .error 500 "io emit threw"
    else .error 401 "Invalid email or password"
  | none => .error 401 "Invalid email or password"

/-- Request body of `registerUser` (`undefined` fields are `none`). -/
structure RegisterBody where
  fullName : String
  email : String
  password : String
  profileImage : Option String
  username : Option String
  roles : Option (List String)
deriving Repr, DecidableEq

/-- `roles && roles.length > 0 ? roles : [UserRole.USER]`. -/
def assignedRoles (roles : Option (List String)) : List String :=
  match roles with
  | some rs => if rs.length > 0 then rs else [UserRole.USER]
  | none => [UserRole.USER]

/-- Modelled from the spec: `User.createUser` lives in the absent
`userModel.js`; section 4.3 says create hashes the password before
persisting and returns the account (the duplicate-email case is already
excluded by the controller's own `findOne` check before this call). The
fresh id is the store length. -/
def createUser (store : Store) (hash : String → String)
    (fullName email password profileImage : String)
    (username : Option String) (roles : List String) : User × Store :=
  let u : User :=
    { id := store.length, fullName := fullName, email := email,
      password := hash password, username := username,
      profileImage := profileImage, roles := roles, isBanned := false }
  (u, store ++ [u])

/-- Response body of a successful registration, field for field as built
at src/controllers/userController.js lines 67-76. -/
def registerPayload (u : User) (token : String) : Payload :=
  [("_id", .num u.id), ("fullName", .str u.fullName), ("email", .str u.email),
   ("isAdmin", .bool (u.hasRole UserRole.ADMIN)), ("profileImage", .str u.profileImage),
   ("username", match u.username with | some s => .str s | none => .null),
   ("roles", .strList u.roles), ("token", .str token)]

/-- `registerUser`: duplicate-email check, role defaulting, creation with
profile-image default and `username || null`, then the 201 response.
Returns the handler result together with the store after the call. -/
def registerUser (store : Store) (hash : String → String) (b : RegisterBody) :
    HResult Payload × Store :=
  if (findOne store b.email).isSome then
    (.error 400 "User already exists", store)
  else
    let created := createUser store hash b.fullName b.email b.password
      (jsOrStr b.profileImage "https://www.example.com/default-profile.jpg")
      (jsOrNull b.username) (assignedRoles b.roles)
    (.success 201 (registerPayload created.1 (generateToken created.1.id)), created.2)

/-- `logoutUser`: clears the jwt cookie, then performs the unguarded
`io.emit`; a throw there aborts the handler before the 200 response. -/
def logoutUser (_userId : Nat) (emit : EmitResult) : HResult Payload :=
  match emit with
  | .ok => .success 200 [("message", .str "Logged out successfully")]
  | .fail => .error 500 "io emit threw"

/-- Result alternatives of the Social Graph Service's follow operation. -/
inductive FollowResult where
  | ok
  | selfFollow
  | alreadyFollowing
  | notFound
deriving Repr, DecidableEq

/-- Modelled from the spec: `followUserService` lives in
`src/services/userService.js`, absent from `src/`; section 4.5 says follow
"fails with SelfFollow if equal; fails with AlreadyFollowing if edge
exists; fails with NotFound if either account absent; otherwise creates
the edge". The follow graph is a list of (followerId, followingId) edges. -/
def followUserService (store : Store) (edges : List (Nat × Nat))
    (followerId followingId : Nat) : FollowResult × List (Nat × Nat) :=
  if followerId == followingId then (.selfFollow, edges)
  else if edges.contains (followerId, followingId) then (.alreadyFollowing, edges)
  else if (findById store followerId).isSome && (findById store followingId).isSome then
    (.ok, (followerId, followingId) :: edges)
  else (.notFound, edges)

/-- `getUserProfile`: `res.status(200).json(req.user)` — the acting user's
document, serialized. -/
def getUserProfile (user : User) : HResult Payload :=
  .success 200 user.toJSON

/-- `getUsers`: `res.status(200).json(await User.find(\x7b\x7d))` — every
document, serialized. -/
def getUsers (store : Store) : HResult (List Payload) :=
  .success 200 (store.map User.toJSON)

/-- `getUserById`. -/
def getUserById (store : Store) (id : Nat) : HResult Payload :=
  match findById store id with
  | some user => .success 200 user.toJSON
  | none => .error 404 "User not found"

/-- Request body of the self-service profile update. -/
structure ProfileBody where
  fullName : Option String
  email : Option String
  username : Option String
deriving Repr, DecidableEq

/-- The field mutations of `updateUserProfile` (lines 154-156): `||`
semantics, so an `undefined` or empty-string field keeps the stored value;
`user.username = req.body.username || user.username` keeps the stored
(possibly null) username when the supplied one is falsy. -/
def profileApply (user : User) (b : ProfileBody) : User :=
  { user with
    fullName := jsOrStr b.fullName user.fullName,
    email := jsOrStr b.email user.email,
    username :=
      match b.username with
      | some s => if s.isEmpty then user.username else some s
      | none => user.username }

/-- Response body of a successful profile update, field for field as built
at src/controllers/userController.js lines 160-166. -/
def profilePayload (u : User) : Payload :=
  [("_id", .num u.id), ("fullName", .str u.fullName), ("email", .str u.email),
   ("username", match u.username with | some s => .str s | none => .null),
   ("profileImage", .str u.profileImage)]

/-- `updateUserProfile`: partial update with `||` semantics
(`user.f = req.body.f || user.f`) on fullName, email and username, then
`user.save()`; 404 when the id is absent. -/
def updateUserProfile (store : Store) (id : Nat) (b : ProfileBody) :
    HResult Payload × Store :=
  match findById store id with
  | some user =>
    let u : User := profileApply user b
    (.success 200 (profilePayload u), saveUser store u)
  | none => (.error 404 "User not found", store)

/-- Request body of the admin update. -/
structure AdminBody where
  fullName : Option String
  email : Option String
  username : Option String
  roles : Option (List String)
deriving Repr, DecidableEq

/-- Response body of a successful admin update, field for field as built
at src/controllers/userController.js lines 225-232. -/
def adminPayload (u : User) : Payload :=
  [("_id", .num u.id), ("fullName", .str u.fullName), ("email", .str u.email),
   ("roles", .strList u.roles),
   ("username", match u.username with | some s => .str s | none => .null),
   ("profileImage", .str u.profileImage)]

/-- The field mutations of `updateUser` (lines 203-205): `!== undefined`
semantics, so any defined value is assigned, the empty string included. -/
def adminApply (user : User) (b : AdminBody) : User :=
  { user with
    fullName := ifDefined b.fullName user.fullName,
    email := ifDefined b.email user.email,
    username :=
      match b.username with
      | some s => some s
      | none => user.username }

/-- `updateUser` (admin): assigns any field that is not `undefined`
(`!== undefined` semantics, the empty string included); when a roles array
is supplied it is validated against `validRoles`, and any invalid entry
aborts with status 400 and the message
`Invalid roles provided: <comma-separated invalid roles>` before
`user.save()` runs; 404 when the id is absent. -/
def updateUser (store : Store) (id : Nat) (b : AdminBody) :
    HResult Payload × Store :=
  match findById store id with
  | some user =>
    let u1 : User := adminApply user b
    match b.roles with
    | some rs =>
      let invalidRoles := rs.filter (fun r => !(validRoles.contains r))
      if invalidRoles.length > 0 then
        (.error 400 ("Invalid roles provided: " ++ String.intercalate ", " invalidRoles),
         store)
      else
        let u2 : User := { u1 with roles := rs }
        (.success 200 (adminPayload u2), saveUser store u2)
    | none => (.success 200 (adminPayload u1), saveUser store u1)
  | none => (.error 404 "User not found", store)

/-- An observable action of the `connectDB` bootstrap. -/
inductive ProcAction where
  | logged (msg : String)
  | exited (code : Nat)
deriving Repr, DecidableEq

/-- Outcome of `mongoose.connect`: connected to a host, or a thrown error. -/
inductive ConnectOutcome where
  | connected (host : String)
  | failed (msg : String)
deriving Repr, DecidableEq

/-- `connectDB` (src/unnamed/part_000): logs the host on success; on a
connection error logs it and calls `process.exit(1)`. The returned list is
the sequence of observable process actions. -/
def connectDB (outcome : ConnectOutcome) : List ProcAction :=
  match outcome with
  | .connected host => [.logged ("MongoDB COnnected...." ++ host)]
  | .failed msg => [.logged ("Error: " ++ msg), .exited 1]

/-- Does a flat payload carry a field with this name? -/
def hasField (p : Payload) (k : String) : Bool :=
  p.any (fun f => f.1 == k)

/-- Field lookup in a flat payload. -/
def lookupField (p : Payload) (k : String) : Option Value :=
  (p.find? (fun f => f.1 == k)).map (fun f => f.2)

/-- Whether a successful result's payload carries a field with this name
(errors carry no payload). -/
def successHasField : HResult Payload → String → Bool
  | .success _ p, k => hasField p k
  | .error _ _, _ => false

/-- Whether any object of a successful list result carries the field. -/
def successListHasField : HResult (List Payload) → String → Bool
  | .success _ ps, k => ps.any (fun p => hasField p k)
  | .error _ _, _ => false

/-- A concrete hashing primitive for witnesses. -/
def demoHash (p : String) : String :=
  "hash:" ++ p

/-- A concrete credential check for witnesses: the stored hash is the demo
hash of the plaintext. -/
def demoMp (plaintext stored : String) : Bool :=
  stored == demoHash plaintext

/-- A concrete account for witnesses. -/
def demoUser : User :=
  { id := 0, fullName := "A", email := "a@x.com", password := demoHash "p1",
    username := none, profileImage := "img", roles := [UserRole.USER],
    isBanned := false }

/-- A concrete one-account store for witnesses. -/
def demoStore : Store := [demoUser]

end Blog

/-! ## Helper lemmas -/

namespace Blog

theorem loginPayload_no_password (u : User) (t : String) :
    hasField (loginPayload u t) "password" = false := by
  simp [hasField, loginPayload]

theorem registerPayload_no_password (u : User) (t : String) :
    hasField (registerPayload u t) "password" = false := by
  simp [hasField, registerPayload]

theorem toJSON_no_password (u : User) :
    hasField (User.toJSON u) "password" = false := by
  simp [hasField, User.toJSON]

theorem profilePayload_no_password (u : User) :
    hasField (profilePayload u) "password" = false := by
  simp [hasField, profilePayload]

theorem adminPayload_no_password (u : User) :
    hasField (adminPayload u) "password" = false := by
  simp [hasField, adminPayload]

theorem findById_id_eq {store : Store} {id : Nat} {user : User}
    (hfind : findById store id = some user) : user.id = id := by
  have h := List.find?_some hfind
  simpa using h

theorem findById_saveUser (store : Store) (id : Nat) (u : User)
    (hex : (findById store id).isSome = true) (hid : u.id = id) :
    findById (saveUser store u) id = some u := by
  subst hid
  unfold findById saveUser at *
  induction store with
  | nil => simp at hex
  | cons head tail ih =>
    by_cases h : head.id = u.id
    · simp [List.find?, h]
    · have h' : (head.id == u.id) = false := by simp [h]
      rw [List.find?_cons_of_neg _ (by simp [h])] at hex
      simp only [List.map_cons, h', Bool.false_eq_true, if_false]
      rw [List.find?_cons_of_neg _ (by simp [h])]
      exact ih hex

end Blog

/-! ## Claim theorems -/

namespace Blog

/-- Claim C1: for every (email, password) pair, authUser succeeds iff an
account with that email exists and the credential check against its stored
hash returns true; in every other case it fails with one and the same
error — status 401, message "Invalid email or password" — whether the
email is unknown or the password is wrong. (Stated with a
normally-returning notifier call; the throwing notifier is claim C5's
subject.) -/
theorem authUser_success_iff (store : Store) (mp : String → String → Bool)
    (email password : String) :
    ((authUser store mp email password .ok).isSuccess = true
      ↔ ∃ u, findOne store email = some u ∧ mp password u.password = true)
    ∧ ((authUser store mp email password .ok).isSuccess = false →
      authUser store mp email password .ok = .error 401 "Invalid email or password") := by
  unfold authUser
  cases hfind : findOne store email with
  | none => simp [HResult.isSuccess]
  | some u =>
    by_cases hm : mp password u.password = true
    · simp [hm, HResult.isSuccess]
    · simp only [Bool.not_eq_true] at hm
      simp [hm, HResult.isSuccess]

/-- Witness for claim C1's theorem: at the demo store, the registered
email and the matching password, login succeeds. -/
theorem authUser_success_iff_witness :
    (authUser demoStore demoMp "a@x.com" "p1" EmitResult.ok).isSuccess = true :=
  (authUser_success_iff demoStore demoMp "a@x.com" "p1").1.mpr ⟨demoUser, rfl, rfl⟩

/-- Claim C5, evaluated at the failing input (the code contradicts the
fire-and-forget requirement): with valid credentials the login succeeds
when the notifier call returns normally, but the very same login — and a
logout — fail when the unguarded io.emit throws, because the emit sits on
the success path before the response is sent. -/
theorem emit_failure_fails_login_and_logout :
    authUser demoStore demoMp "a@x.com" "p1" .fail = .error 500 "io emit threw"
    ∧ logoutUser 0 .fail = .error 500 "io emit threw"
    ∧ authUser demoStore demoMp "a@x.com" "p1" .ok =
        .success 200 (loginPayload demoUser (generateToken demoUser.id)) :=
  ⟨rfl, rfl, rfl⟩

/-- Claim C6 counterexample: when the initial storage connection fails,
connectDB performs a process-wide halt — exit code 1 is among its
observable actions. -/
theorem connectDB_exits_on_storage_error :
    ProcAction.exited 1 ∈ connectDB (.failed "ECONNREFUSED") := by decide

/-- Claim C6 amended: the startup bootstrap connectDB halts the process
with exit code 1 when the initial storage connection fails (after logging
the error message); on a successful connection it logs the host and never
exits. -/
theorem connectDB_halt_characterization (msg host : String) :
    connectDB (.failed msg) = [.logged ("Error: " ++ msg), .exited 1]
    ∧ ProcAction.exited 1 ∉ connectDB (.connected host) :=
  ⟨rfl, by simp [connectDB]⟩

/-- Claim C9: for every store, follow graph and account a, follow(a, a)
fails with SelfFollow and creates no follow edge (the graph is returned
unchanged). -/
theorem followUserService_self_follow (store : Store) (edges : List (Nat × Nat))
    (a : Nat) :
    followUserService store edges a a = (.selfFollow, edges) := by
  simp [followUserService]

end Blog

namespace Blog

/-- Claim C2: for every input, every success payload of login (authUser),
registration, list-all-users (getUsers), get-user-by-id, get-profile — and
likewise of the two update handlers and logout — omits the stored password
hash field. -/
theorem success_payloads_omit_password (store : Store)
    (mp : String → String → Bool) (hash : String → String)
    (email password : String) (b : RegisterBody) (emit : EmitResult)
    (id uid pid : Nat) (user : User) (pb : ProfileBody) (ab : AdminBody) :
    successHasField (authUser store mp email password emit) "password" = false
    ∧ successHasField (registerUser store hash b).1 "password" = false
    ∧ successListHasField (getUsers store) "password" = false
    ∧ successHasField (getUserById store id) "password" = false
    ∧ successHasField (getUserProfile user) "password" = false
    ∧ successHasField (updateUserProfile store pid pb).1 "password" = false
    ∧ successHasField (updateUser store uid ab).1 "password" = false
    ∧ successHasField (logoutUser id emit) "password" = false := by
  refine ⟨?_, ?_, ?_, ?_, ?_, ?_, ?_, ?_⟩
  · unfold authUser
    cases findOne store email with
    | none => rfl
    | some u =>
      by_cases hm : mp password u.password = true
      · cases emit <;> simp [hm, successHasField, loginPayload_no_password]
      · simp only [Bool.not_eq_true] at hm
        simp [hm, successHasField]
  · unfold registerUser
    by_cases hdup : (findOne store b.email).isSome = true
    · simp [hdup, successHasField]
    · simp only [Bool.not_eq_true] at hdup
      simp [hdup, successHasField, registerPayload_no_password]
  · simp only [getUsers, successListHasField, List.any_eq_false]
    intro p hp
    obtain ⟨u, _, rfl⟩ := List.mem_map.mp hp
    simp [toJSON_no_password]
  · unfold getUserById
    cases findById store id with
    | none => rfl
    | some u => simp [successHasField, toJSON_no_password]
  · simp [getUserProfile, successHasField, toJSON_no_password]
  · unfold updateUserProfile
    cases findById store pid with
    | none => rfl
    | some u => simp [successHasField, profilePayload_no_password]
  · unfold updateUser
    cases findById store uid with
    | none => rfl
    | some u =>
      cases ab.roles with
      | none => simp [successHasField, adminPayload_no_password]
      | some rs =>
        by_cases hlen : (rs.filter (fun r => !(validRoles.contains r))).length > 0
        · simp only [if_pos hlen]
          rfl
        · simp only [if_neg hlen]
          simp [successHasField, adminPayload_no_password]
  · cases emit <;> rfl

/-- Claim C3: an admin update whose request supplies a roles list with at
least one value outside the fixed role enumeration fails with status 400
and message `Invalid roles provided: <comma-separated invalid roles>`
(the filtered list keeps every offending entry, as the second conjunct
states), and the store is returned unchanged — no save is performed, so
the account's existing roles are untouched. -/
theorem updateUser_invalid_roles (store : Store) (id : Nat) (b : AdminBody)
    (user : User) (rs : List String)
    (hfind : findById store id = some user) (hroles : b.roles = some rs)
    (hinv : ∃ r ∈ rs, r ∉ validRoles) :
    updateUser store id b =
      (.error 400 ("Invalid roles provided: " ++
        String.intercalate ", " (rs.filter (fun r => !(validRoles.contains r)))), store)
    ∧ ∀ r ∈ rs, r ∉ validRoles →
      r ∈ rs.filter (fun r => !(validRoles.contains r)) := by
  obtain ⟨r0, hr0, hval0⟩ := hinv
  have hmem : r0 ∈ rs.filter (fun r => !(validRoles.contains r)) :=
    List.mem_filter.mpr ⟨hr0, by simpa using hval0⟩
  have hlen : (rs.filter (fun r => !(validRoles.contains r))).length > 0 :=
    List.length_pos.mpr (List.ne_nil_of_mem hmem)
  constructor
  · unfold updateUser
    rw [hfind, hroles]
    simp only [if_pos hlen]
  · intro r hr hval
    exact List.mem_filter.mpr ⟨hr, by simpa using hval⟩

/-- Witness for claim C3's theorem: the role SUPERUSER is rejected with
status 400 and the message "Invalid roles provided: SUPERUSER", and the
store comes back unchanged. -/
theorem updateUser_invalid_roles_witness :
    updateUser demoStore 0 ⟨none, none, none, some ["SUPERUSER"]⟩ =
      (.error 400 "Invalid roles provided: SUPERUSER", demoStore) := by
  have h := (updateUser_invalid_roles demoStore 0 ⟨none, none, none, some ["SUPERUSER"]⟩
      demoUser ["SUPERUSER"] rfl rfl ⟨"SUPERUSER", by decide, by decide⟩).1
  exact h.trans (by decide)

/-- Claim C4: a registration whose roles field is omitted or an empty list
(and whose email is free) creates an account whose role set is exactly
[USER], appended to the store, and answers 201 with a payload whose roles
field is that role set and whose token field carries the session token. -/
theorem registerUser_default_roles (store : Store) (hash : String → String)
    (b : RegisterBody) (hfree : findOne store b.email = none)
    (hroles : b.roles = none ∨ b.roles = some []) :
    ∃ user : User,
      (registerUser store hash b).2 = store ++ [user]
      ∧ user.roles = [UserRole.USER]
      ∧ (registerUser store hash b).1 =
          .success 201 (registerPayload user (generateToken user.id))
      ∧ lookupField (registerPayload user (generateToken user.id)) "roles" =
          some (.strList [UserRole.USER])
      ∧ lookupField (registerPayload user (generateToken user.id)) "token" =
          some (.str (generateToken user.id)) := by
  have hassigned : assignedRoles b.roles = [UserRole.USER] := by
    rcases hroles with h | h <;> simp [assignedRoles, h]
  refine ⟨(createUser store hash b.fullName b.email b.password
      (jsOrStr b.profileImage "https://www.example.com/default-profile.jpg")
      (jsOrNull b.username) (assignedRoles b.roles)).1, ?_, ?_, ?_, ?_, ?_⟩
  · unfold registerUser
    simp [hfree, createUser]
  · simp [createUser, hassigned]
  · unfold registerUser
    simp [hfree]
  · simp [lookupField, registerPayload, List.find?, createUser, hassigned]
  · simp [lookupField, registerPayload, List.find?]

/-- Witness for claim C4's theorem: registering into the empty store with
no roles field yields roles = [USER], a 201 payload and a token. -/
theorem registerUser_default_roles_witness :
    ∃ user : User,
      (registerUser [] demoHash ⟨"A", "a@x.com", "p1", none, none, none⟩).2 = [] ++ [user]
      ∧ user.roles = [UserRole.USER]
      ∧ (registerUser [] demoHash ⟨"A", "a@x.com", "p1", none, none, none⟩).1 =
          .success 201 (registerPayload user (generateToken user.id))
      ∧ lookupField (registerPayload user (generateToken user.id)) "roles" =
          some (.strList [UserRole.USER])
      ∧ lookupField (registerPayload user (generateToken user.id)) "token" =
          some (.str (generateToken user.id)) :=
  registerUser_default_roles [] demoHash ⟨"A", "a@x.com", "p1", none, none, none⟩
    rfl (Or.inl rfl)

/-- Claim C7: a registration whose email already belongs to an existing
account fails with status 400 "User already exists" and the store is
returned unchanged — no account is created. -/
theorem registerUser_duplicate_email (store : Store) (hash : String → String)
    (b : RegisterBody) (u : User) (hdup : findOne store b.email = some u) :
    registerUser store hash b = (.error 400 "User already exists", store) := by
  unfold registerUser
  simp [hdup]

/-- Witness for claim C7's theorem: re-registering the demo user's email
fails with "User already exists" and leaves the one-account store as it
was. -/
theorem registerUser_duplicate_email_witness :
    registerUser demoStore demoHash ⟨"B", "a@x.com", "p2", none, none, none⟩ =
      (.error 400 "User already exists", demoStore) :=
  registerUser_duplicate_email demoStore demoHash
    ⟨"B", "a@x.com", "p2", none, none, none⟩ demoUser rfl

end Blog

namespace Blog

/-- Claim C8: for an existing account, updateUserProfile is a partial
update — each of fullName, email, username keeps its stored value when not
supplied — and every other field of the stored account (profile image,
roles, ban flag, password hash, id) is unchanged; for an absent id it
fails with status 404 "User not found" and leaves the store unchanged. -/
theorem updateUserProfile_retains_unspecified (store : Store) (id : Nat) (b : ProfileBody) :
    (∀ user, findById store id = some user →
      ∃ u, findById (updateUserProfile store id b).2 id = some u
        ∧ (b.fullName = none → u.fullName = user.fullName)
        ∧ (b.email = none → u.email = user.email)
        ∧ (b.username = none → u.username = user.username)
        ∧ u.profileImage = user.profileImage
        ∧ u.roles = user.roles
        ∧ u.isBanned = user.isBanned
        ∧ u.password = user.password
        ∧ u.id = user.id
        ∧ (updateUserProfile store id b).1.isSuccess = true)
    ∧ (findById store id = none →
      updateUserProfile store id b = (.error 404 "User not found", store)) := by
  constructor
  · intro user hfind
    have hid : user.id = id := findById_id_eq hfind
    have hex : (findById store id).isSome = true := by rw [hfind]; rfl
    have heq : updateUserProfile store id b =
        (.success 200 (profilePayload (profileApply user b)),
         saveUser store (profileApply user b)) := by
      unfold updateUserProfile
      rw [hfind]
    refine ⟨profileApply user b, ?_, ?_, ?_, ?_, rfl, rfl, rfl, rfl, rfl, ?_⟩
    · rw [heq]
      exact findById_saveUser store id (profileApply user b) hex hid
    · intro h
      simp [profileApply, h, jsOrStr]
    · intro h
      simp [profileApply, h, jsOrStr]
    · intro h
      simp [profileApply, h]
    · rw [heq]
      rfl
  · intro hnone
    unfold updateUserProfile
    rw [hnone]

/-- Witness for claim C8's theorem: updating the demo user's profile with
an empty body keeps the full name and the password hash. -/
theorem updateUserProfile_retains_unspecified_witness :
    ∃ u, findById (updateUserProfile demoStore 0 ⟨none, none, none⟩).2 0 = some u
      ∧ u.fullName = demoUser.fullName
      ∧ u.password = demoUser.password := by
  obtain ⟨u, h1, h2, _, _, _, _, _, h8, _, _⟩ :=
    (updateUserProfile_retains_unspecified demoStore 0 ⟨none, none, none⟩).1 demoUser rfl
  exact ⟨u, h1, h2 rfl, h8⟩

/-- Claim C10: on an existing account, the self-service profile update
treats a falsy-but-defined field (the empty string) as unspecified and
keeps the stored value, while the admin update assigns any field that is
defined at all, the empty string included — the two update paths disagree
on falsy-but-defined inputs. -/
theorem profile_vs_admin_on_falsy_defined (store : Store) (id : Nat) (user : User)
    (pb : ProfileBody) (ab : AdminBody)
    (hfind : findById store id = some user) (hroles : ab.roles = none) :
    (∃ u, findById (updateUserProfile store id pb).2 id = some u
       ∧ (pb.fullName = some "" → u.fullName = user.fullName)
       ∧ (pb.email = some "" → u.email = user.email)
       ∧ (pb.username = some "" → u.username = user.username))
    ∧ (∃ u, findById (updateUser store id ab).2 id = some u
       ∧ (∀ s, ab.fullName = some s → u.fullName = s)
       ∧ (∀ s, ab.email = some s → u.email = s)
       ∧ (∀ s, ab.username = some s → u.username = some s)) := by
  have hid : user.id = id := findById_id_eq hfind
  have hex : (findById store id).isSome = true := by rw [hfind]; rfl
  constructor
  · have heq : (updateUserProfile store id pb).2 = saveUser store (profileApply user pb) := by
      unfold updateUserProfile
      rw [hfind]
    refine ⟨profileApply user pb, ?_, ?_, ?_, ?_⟩
    · rw [heq]
      exact findById_saveUser store id (profileApply user pb) hex hid
    · intro h
      simp [profileApply, h, jsOrStr, show "".isEmpty = true from rfl]
    · intro h
      simp [profileApply, h, jsOrStr, show "".isEmpty = true from rfl]
    · intro h
      simp [profileApply, h, show "".isEmpty = true from rfl]
  · have heq : (updateUser store id ab).2 = saveUser store (adminApply user ab) := by
      unfold updateUser
      rw [hfind, hroles]
    refine ⟨adminApply user ab, ?_, ?_, ?_, ?_⟩
    · rw [heq]
      exact findById_saveUser store id (adminApply user ab) hex hid
    · intro s h
      simp [adminApply, h, ifDefined]
    · intro s h
      simp [adminApply, h, ifDefined]
    · intro s h
      simp [adminApply, h]

/-- Witness for claim C10's theorem: with the empty string supplied for
fullName, the profile update keeps the demo user's stored name while the
admin update overwrites it with the empty string. -/
theorem profile_vs_admin_on_falsy_defined_witness :
    (∃ u, findById (updateUserProfile demoStore 0 ⟨some "", some "", some ""⟩).2 0 = some u
       ∧ u.fullName = demoUser.fullName)
    ∧ (∃ u, findById (updateUser demoStore 0 ⟨some "", some "", some "", none⟩).2 0 = some u
       ∧ u.fullName = "") := by
  obtain ⟨⟨u1, h1, hf1, _, _⟩, ⟨u2, h2, hf2, _, _⟩⟩ :=
    profile_vs_admin_on_falsy_defined demoStore 0 demoUser
      ⟨some "", some "", some ""⟩ ⟨some "", some "", some "", none⟩ rfl rfl
  exact ⟨⟨u1, h1, hf1 rfl⟩, ⟨u2, h2, hf2 "" rfl⟩⟩

end Blog
